import Mathlib

/-!
Shallow embedding of `disco/types/guild.py`: the Guild aggregate, its child
entities (GuildMember, Role, Emoji, Channel, VoiceState), the construction-time
attachment of `guild_id`, the member cache-fill (`get_member`), permission
resolution (`get_permissions`), role mutation dispatch (`update_role`,
`add_role`, `set_nickname`) and the one-shot member sync (`sync`).

Python dicts (ordered, key-unique) are modelled as association lists with
`dictGet` (`dict.get`, returning `none` on a missing key) and `dictSet`
(`dict.__setitem__`, replacing in place or appending).  A raised exception
escaping an operation is modelled as a `none` result; remote calls are
modelled by an explicit `Api` oracle together with a count of calls made, and
dispatched outbound requests are returned as an explicit list of `ApiCall`
values.
-/

namespace Disco

/-- Python `dict.get key`: first value bound to `key`, or `none` when absent. -/
def dictGet {κ β : Type} [DecidableEq κ] : List (κ × β) → κ → Option β
  | [], _ => none
  | (k, v) :: rest, key => if key = k then some v else dictGet rest key

/-- Python `dict[key] = v`: replace the binding in place when present, append otherwise. -/
def dictSet {κ β : Type} [DecidableEq κ] : List (κ × β) → κ → β → List (κ × β)
  | [], key, v => [(key, v)]
  | (k, w) :: rest, key, v =>
    if key = k then (key, v) :: rest else (k, w) :: dictSet rest key v

/-- Modelled from the spec: `disco.types.permissions.PermissionValue` (not under
src/) is a bitset wrapper over the named permission bits, combined by union. -/
structure PermissionValue where
  value : Nat
deriving Repr, DecidableEq

/-- Modelled from the spec: bitset union, the `+` / `+=` of `PermissionValue`. -/
def PermissionValue.add (a b : PermissionValue) : PermissionValue :=
  PermissionValue.mk (Nat.lor a.value b.value)

namespace Permissions

/-- Modelled from the spec: the named `ADMINISTRATOR` bit of the permission
registry `disco.types.permissions.Permissions` (not under src/); the spec says
only that it is a fixed named bit that implies all others, so a concrete bit
position is chosen here. -/
def ADMINISTRATOR : Nat := 8

end Permissions

/-- Embedding of `disco.types.user.User`, reduced to the identity the guild code reads. -/
structure User where
  id : Nat
deriving Repr, DecidableEq

/-- Embedding of `disco.types.voice.VoiceState`, reduced to the fields the guild code reads. -/
structure VoiceState where
  session_id : String
  guild_id : Nat
  user_id : Nat
deriving Repr, DecidableEq

/-- Embedding of `disco.types.channel.Channel`, reduced to the fields the guild code touches. -/
structure Channel where
  id : Nat
  guild_id : Nat
deriving Repr, DecidableEq

/-- Embedding of `Emoji` (guild.py lines 33-54). -/
structure Emoji where
  id : Nat
  guild_id : Nat
  name : String
  require_colons : Bool
  managed : Bool
  roles : List Nat
deriving Repr, DecidableEq

/-- Embedding of `Role` (guild.py lines 57-95). -/
structure Role where
  id : Nat
  guild_id : Nat
  name : String
  hoist : Bool
  managed : Bool
  color : Nat
  permissions : PermissionValue
  position : Nat
  mentionable : Bool
deriving Repr, DecidableEq

/-- Embedding of `GuildMember` (guild.py lines 98-184). -/
structure GuildMember where
  user : User
  guild_id : Nat
  nick : Option String
  mute : Bool
  deaf : Bool
  joined_at : String
  roles : List Nat
deriving Repr, DecidableEq

/-- Embedding of `GuildMember.id` (lines 179-184): alias to the member's user id. -/
def GuildMember.id (m : GuildMember) : Nat := m.user.id

/-- Embedding of `Guild` (guild.py lines 187-251), with the five child collections as
ordered id-keyed maps and the `synced` flag (default `false`). -/
structure Guild where
  id : Nat
  owner_id : Nat
  afk_channel_id : Nat
  name : String
  region : String
  afk_timeout : Nat
  verification_level : Nat
  mfa_level : Nat
  features : List String
  members : List (Nat × GuildMember)
  channels : List (Nat × Channel)
  roles : List (Nat × Role)
  emojis : List (Nat × Emoji)
  voice_states : List (String × VoiceState)
  member_count : Nat
  synced : Bool
deriving Repr, DecidableEq

/-- Embedding of `Guild.__init__` (lines 253-260): attach `guild_id = self.id` onto every
value of the five child collections, in source order. -/
def Guild.init (g : Guild) : Guild :=
  { g with
    channels := g.channels.map (fun p => (p.1, { p.2 with guild_id := g.id })),
    members := g.members.map (fun p => (p.1, { p.2 with guild_id := g.id })),
    roles := g.roles.map (fun p => (p.1, { p.2 with guild_id := g.id })),
    emojis := g.emojis.map (fun p => (p.1, { p.2 with guild_id := g.id })),
    voice_states := g.voice_states.map (fun p => (p.1, { p.2 with guild_id := g.id })) }

/-- The remote API collaborator used by `get_member`:
`guilds_members_get(guild_id, user_id)`, with `none` standing for a raised
`APIException`. -/
structure Api where
  guilds_members_get : Nat → Nat → Option GuildMember

/-- Embedding of `Guild.get_member` (lines 298-315).  Returns the result
(`none` = fell out of the `except APIException` branch), the updated guild
state, and the number of remote fetches performed. -/
def Guild.get_member (g : Guild) (api : Api) (user : Nat) :
    Option GuildMember × Guild × Nat :=
  match dictGet g.members user with
  | some _ => (dictGet g.members user, g, 0)
  | none =>
    match api.guilds_members_get g.id user with
    | some m =>
      let g' : Guild := { g with members := dictSet g.members user m }
      (dictGet g'.members user, g', 1)
    | none => (none, g, 1)

/-- The accumulation loop of `get_permissions` (lines 277-278):
`for role in map(self.roles.get, member.roles): value += role.permissions`.
A role id absent from the role map makes `self.roles.get` yield `None`, so
`role.permissions` raises `AttributeError`, modelled as a `none` result. -/
def permLoop (roles : List (Nat × Role)) : List Nat → PermissionValue → Option PermissionValue
  | [], value => some value
  | rid :: rest, value =>
    match dictGet roles rid with
    | none => none
    | some role => permLoop roles rest (value.add role.permissions)

/-- Embedding of `Guild.get_permissions` (lines 262-280).  Returns the computed value
(`none` = an `AttributeError` escaped: missing everyone-role, member not
resolvable, or a member role id absent from the role map), the guild state
after the inner `get_member` call, and the number of remote fetches. -/
def Guild.get_permissions (g : Guild) (api : Api) (user : User) :
    Option PermissionValue × Guild × Nat :=
  if g.owner_id = user.id then
    (some (PermissionValue.mk Permissions.ADMINISTRATOR), g, 0)
  else
    let r := g.get_member api user.id
    let g' := r.2.1
    match dictGet g'.roles g'.id with
    | none => (none, g', r.2.2)
    | some everyone =>
      match r.1 with
      | none => (none, g', r.2.2)
      | some member =>
        (permLoop g'.roles member.roles (PermissionValue.mk everyone.permissions.value),
         g', r.2.2)

/-- Embedding of `Guild.get_voice_state` (lines 282-296): linear scan of the voice-state
map values for the first entry whose `user_id` matches. -/
def Guild.get_voice_state (g : Guild) (user : Nat) : Option VoiceState :=
  (g.voice_states.map Prod.snd).find? (fun s => s.user_id = user)

/-- Modelled from the spec: the opcode of the outbound gateway signal sent by
`sync` (`disco.gateway.packets.OPCode`, not under src/); the spec calls it the
"request full member list" signal. -/
inductive OPCode where
  | REQUEST_GUILD_MEMBERS
deriving Repr, DecidableEq

/-- An outbound gateway packet, as sent by `self.client.gw.send` (lines 349-353). -/
structure GatewayCmd where
  op : OPCode
  guild_id : Nat
  query : String
  limit : Nat
deriving Repr, DecidableEq

/-- Embedding of `Guild.sync` (lines 344-353): no-op when already synced, otherwise set the
flag and emit one REQUEST_GUILD_MEMBERS packet with empty query and limit 0. -/
def Guild.sync (g : Guild) : Guild × List GatewayCmd :=
  if g.synced then (g, [])
  else ({ g with synced := true },
        [GatewayCmd.mk OPCode.REQUEST_GUILD_MEMBERS g.id "" 0])

/-- Iterate `sync`: `n` successive calls of `sync` on the same aggregate, collecting the
emitted packets in order. -/
def syncN : Nat → Guild → Guild × List GatewayCmd
  | 0, g => (g, [])
  | n + 1, g =>
    let r := g.sync
    let r' := syncN n r.1
    (r'.1, r.2 ++ r'.2)

/-- Outbound REST calls dispatched by the mutation helpers. -/
inductive ApiCall where
  | guilds_members_modify (guild_id : Nat) (user_id : Nat)
      (nick : Option String) (roles : Option (List Nat))
  | guilds_roles_modify (guild_id : Nat) (role_id : Nat) (name : String)
      (permissions : Nat) (position : Nat) (color : Nat) (hoist : Bool)
      (mentionable : Bool)
deriving Repr, DecidableEq

/-- Python string truthiness of `nickname or ''` (line 163): `None` and the
empty string are falsy and give `''`; any other string passes unchanged. -/
def pyStrOr (v : Option String) (d : String) : String :=
  match v with
  | none => d
  | some s => if s = "" then d else s

/-- Embedding of `GuildMember.set_nickname` (lines 154-163): dispatch one
`guilds_members_modify` call with `nick = nickname or ''`; `g` is the owning
guild resolved through `self.guild`.  The member itself is not modified. -/
def GuildMember.set_nickname (m : GuildMember) (g : Guild) (nickname : Option String) :
    GuildMember × List ApiCall :=
  (m, [ApiCall.guilds_members_modify g.id m.user.id (some (pyStrOr nickname "")) none])

/-- Embedding of `GuildMember.add_role` (lines 165-167): dispatch one
`guilds_members_modify` call carrying the member's prior role-id list with the
new id appended; the member's own `roles` field is not modified. -/
def GuildMember.add_role (m : GuildMember) (g : Guild) (role : Role) :
    GuildMember × List ApiCall :=
  let roles := m.roles ++ [role.id]
  (m, [ApiCall.guilds_members_modify g.id m.user.id none (some roles)])

/-- Embedding of `Guild.update_role` (lines 334-342): dispatch one `guilds_roles_modify`
call serializing name, permissions (raw integer), position, color, hoist and
mentionable; no local state is touched. -/
def Guild.update_role (g : Guild) (role : Role) : Guild × List ApiCall :=
  (g, [ApiCall.guilds_roles_modify g.id role.id role.name role.permissions.value
        role.position role.color role.hoist role.mentionable])

/-! ### Concrete fixtures -/

/-- A role with the given id and raw permission bits. -/
def mkRole (i p : Nat) : Role :=
  { id := i, guild_id := 0, name := "role", hoist := false, managed := false,
    color := 0, permissions := PermissionValue.mk p, position := 0,
    mentionable := false }

/-- A member with the given user id and role-id list. -/
def mkMember (uid : Nat) (rs : List Nat) : GuildMember :=
  { user := User.mk uid, guild_id := 0, nick := none, mute := false,
    deaf := false, joined_at := "", roles := rs }

/-- A guild shell with id 1 and owner 9, all collections empty. -/
def gBase : Guild :=
  { id := 1, owner_id := 9, afk_channel_id := 0, name := "guild",
    region := "us-west", afk_timeout := 0, verification_level := 0,
    mfa_level := 0, features := [], members := [], channels := [], roles := [],
    emojis := [], voice_states := [], member_count := 0, synced := false }

/-- A remote API on which every member fetch raises `APIException`. -/
def apiNone : Api := Api.mk (fun _ _ => none)

/-- A remote API that successfully returns `mkMember 3 []` with `guild_id` 77
for every fetch. -/
def apiFetch3 : Api :=
  Api.mk (fun _ _ => some { mkMember 3 [] with guild_id := 77 })

/-- Guild 1 whose role map holds only the everyone-role (id 1, bits 1) and
whose member cache holds member 3 carrying the stale role id 5. -/
def gStale : Guild :=
  { gBase with roles := [(1, mkRole 1 1)], members := [(3, mkMember 3 [5])] }

/-- Like `gStale` but the referenced role 5 (bits 2) exists. -/
def gFresh : Guild :=
  { gBase with
    roles := [(1, mkRole 1 1), (5, mkRole 5 2)],
    members := [(3, mkMember 3 [5])] }

example : (gFresh.get_permissions apiNone (User.mk 3)).1 =
    some (PermissionValue.mk 3) := rfl

example : (gFresh.get_permissions apiNone (User.mk 3)).2 = (gFresh, 0) := rfl

/-! ### Helper lemmas -/

/-- Inserting at a key and reading the same key back gives the new value. -/
theorem dictGet_dictSet_self {κ β : Type} [DecidableEq κ]
    (l : List (κ × β)) (key : κ) (v : β) :
    dictGet (dictSet l key v) key = some v := by
  induction l with
  | nil => simp [dictGet, dictSet]
  | cons p rest ih =>
    obtain ⟨k, w⟩ := p
    by_cases h : key = k <;> simp [dictSet, dictGet, h, ih]

/-! ### Claims -/

/-- C1 (code_bug evidence): on guild `gStale`, whose cached member 3 carries
the stale role id 5 absent from the role map, `get_permissions` for user 3
faults (the loop dereferences `None.permissions`, an `AttributeError`) instead
of skipping the stale id and returning the everyone-role's permissions. -/
theorem C1_stale_role_id_faults :
    (gStale.get_permissions apiNone (User.mk 3)).1 = none := rfl

/-- C2: whenever the target user's id equals the guild's `owner_id`,
`get_permissions` returns the administrator bitset immediately, for every
role map and member cache, with no remote fetch and no state change. -/
theorem C2_owner_gets_admin (g : Guild) (api : Api) (u : User)
    (h : g.owner_id = u.id) :
    g.get_permissions api u =
      (some (PermissionValue.mk Permissions.ADMINISTRATOR), g, 0) := by
  simp [Guild.get_permissions, h]

/-- C2 witness: owner 9 of `gStale` gets the administrator bitset even though
the member cache and role map are inconsistent. -/
theorem C2_owner_gets_admin_witness :
    gStale.owner_id = (User.mk 9).id ∧
    gStale.get_permissions apiNone (User.mk 9) =
      (some (PermissionValue.mk Permissions.ADMINISTRATOR), gStale, 0) :=
  ⟨rfl, C2_owner_gets_admin gStale apiNone (User.mk 9) rfl⟩

/-- C3: on a cache miss, `get_member` performs exactly one remote fetch; on
fetch success the result is inserted into the member map keyed by the id and
returned, and a subsequent call is a cache hit with no remote call; on fetch
failure the result is absent, the member map is unchanged, and a subsequent
call fetches again. -/
theorem C3_get_member_miss (g : Guild) (api api2 : Api) (uid : Nat)
    (h : dictGet g.members uid = none) :
    (g.get_member api uid).2.2 = 1 ∧
    (∀ m, api.guilds_members_get g.id uid = some m →
      g.get_member api uid =
        (some m, { g with members := dictSet g.members uid m }, 1) ∧
      Guild.get_member { g with members := dictSet g.members uid m } api2 uid =
        (some m, { g with members := dictSet g.members uid m }, 0)) ∧
    (api.guilds_members_get g.id uid = none →
      g.get_member api uid = (none, g, 1) ∧
      (g.get_member api2 uid).2.2 = 1) := by
  refine ⟨?_, ?_, ?_⟩
  · cases happi : api.guilds_members_get g.id uid <;>
      simp [Guild.get_member, h, happi]
  · intro m hm
    constructor
    · simp [Guild.get_member, h, hm, dictGet_dictSet_self]
    · simp [Guild.get_member, dictGet_dictSet_self]
  · intro hn
    constructor
    · simp [Guild.get_member, h, hn]
    · cases happi : api2.guilds_members_get g.id uid <;>
        simp [Guild.get_member, h, happi]

/-- C3 witness: user 3 is missing from `gBase`, and the fetch through
`apiFetch3` caches and returns the fetched member. -/
theorem C3_get_member_miss_witness :
    dictGet gBase.members 3 = none ∧
    gBase.get_member apiFetch3 3 =
      (some { mkMember 3 [] with guild_id := 77 },
       { gBase with members := [(3, { mkMember 3 [] with guild_id := 77 })] },
       1) :=
  ⟨rfl, ((C3_get_member_miss gBase apiFetch3 apiNone 3 rfl).2.1 _ rfl).1⟩

/-- C9: a member inserted by `get_member` on a cache miss is stored exactly as
the remote fetch returned it, with no `guild_id` attachment; in particular a
fetched member whose `guild_id` differs from the owning guild's id is cached
as-is, so `guild_id = g.id` is not guaranteed for cache-filled members. -/
theorem C9_cache_fill_skips_attach (g : Guild) (api : Api) (uid : Nat)
    (m : GuildMember)
    (hmiss : dictGet g.members uid = none)
    (hapi : api.guilds_members_get g.id uid = some m) :
    dictGet (g.get_member api uid).2.1.members uid = some m ∧
    ∃ g0 api0 u0 m0,
      dictGet g0.members u0 = none ∧
      api0.guilds_members_get g0.id u0 = some m0 ∧
      dictGet (Guild.get_member g0 api0 u0).2.1.members u0 = some m0 ∧
      m0.guild_id ≠ g0.id := by
  constructor
  · simp [Guild.get_member, hmiss, hapi, dictGet_dictSet_self]
  · refine ⟨gBase, apiFetch3, 3, { mkMember 3 [] with guild_id := 77 },
      rfl, rfl, rfl, by decide⟩

/-- C9 witness: the concrete cache-fill of user 3 into `gBase` through
`apiFetch3` stores the fetched member unchanged, `guild_id` 77 included. -/
theorem C9_cache_fill_skips_attach_witness :
    dictGet gBase.members 3 = none ∧
    apiFetch3.guilds_members_get gBase.id 3 =
      some { mkMember 3 [] with guild_id := 77 } ∧
    dictGet (gBase.get_member apiFetch3 3).2.1.members 3 =
      some { mkMember 3 [] with guild_id := 77 } :=
  ⟨rfl, rfl,
    (C9_cache_fill_skips_attach gBase apiFetch3 3
      { mkMember 3 [] with guild_id := 77 } rfl rfl).1⟩

/-- The guild used to refute C4: everyone-role present, member cache empty. -/
def gPre : Guild := { gBase with roles := [(1, mkRole 1 1)] }

/-- C4 counterexample: user 3 is not the owner of `gPre` and is absent from
its member cache, yet `get_permissions` performs a remote fetch (count 1) and
inserts the fetched member into the member map, contradicting the claim that
it performs no cache-fill fetch and leaves the member map unchanged. -/
theorem C4_counterexample :
    ¬ gPre.owner_id = (User.mk 3).id ∧
    dictGet gPre.members 3 = none ∧
    (gPre.get_permissions apiFetch3 (User.mk 3)).2.2 = 1 ∧
    (gPre.get_permissions apiFetch3 (User.mk 3)).2.1.members ≠ gPre.members := by
  refine ⟨by decide, rfl, rfl, by decide⟩

/-- C4 amended: for a non-owner user, `get_permissions` resolves the member by
calling `get_member`, so its member-map effect and remote-fetch count are
exactly those of `get_member` (one cache-fill fetch on a miss); when the
member cannot be resolved at all, the call faults instead of returning a
value. -/
theorem C4_member_resolution_via_fetch (g : Guild) (api : Api) (u : User)
    (h : ¬ g.owner_id = u.id) :
    (g.get_permissions api u).2 = (g.get_member api u.id).2 ∧
    ((g.get_member api u.id).1 = none → (g.get_permissions api u).1 = none) := by
  simp only [Guild.get_permissions, if_neg h]
  rcases hrm : g.get_member api u.id with ⟨mo, g', n⟩
  cases he : dictGet g'.roles g'.id with
  | none => simp [he]
  | some everyone =>
    cases mo with
    | none => simp [he]
    | some member => simp [he]

/-- C4 amended witness: for non-owner user 3 on `gStale` (member cached, no
fetch needed), the state and fetch count agree with `get_member`. -/
theorem C4_member_resolution_via_fetch_witness :
    ¬ gStale.owner_id = (User.mk 3).id ∧
    (gStale.get_permissions apiNone (User.mk 3)).2 =
      (gStale.get_member apiNone 3).2 :=
  ⟨by decide,
    (C4_member_resolution_via_fetch gStale apiNone (User.mk 3) (by decide)).1⟩

/-- C5: after construction, every child entity present in any of the guild's
five collections (members, roles, channels, emojis, voice_states) has its
`guild_id` equal to the guild's id. -/
theorem C5_attachment (g : Guild) :
    (∀ p ∈ (Guild.init g).members, p.2.guild_id = g.id) ∧
    (∀ p ∈ (Guild.init g).roles, p.2.guild_id = g.id) ∧
    (∀ p ∈ (Guild.init g).channels, p.2.guild_id = g.id) ∧
    (∀ p ∈ (Guild.init g).emojis, p.2.guild_id = g.id) ∧
    (∀ p ∈ (Guild.init g).voice_states, p.2.guild_id = g.id) := by
  refine ⟨?_, ?_, ?_, ?_, ?_⟩
  · intro p hp
    replace hp : p ∈ g.members.map
        (fun q => (q.1, { q.2 with guild_id := g.id })) := hp
    obtain ⟨a, _, rfl⟩ := List.mem_map.mp hp
    rfl
  · intro p hp
    replace hp : p ∈ g.roles.map
        (fun q => (q.1, { q.2 with guild_id := g.id })) := hp
    obtain ⟨a, _, rfl⟩ := List.mem_map.mp hp
    rfl
  · intro p hp
    replace hp : p ∈ g.channels.map
        (fun q => (q.1, { q.2 with guild_id := g.id })) := hp
    obtain ⟨a, _, rfl⟩ := List.mem_map.mp hp
    rfl
  · intro p hp
    replace hp : p ∈ g.emojis.map
        (fun q => (q.1, { q.2 with guild_id := g.id })) := hp
    obtain ⟨a, _, rfl⟩ := List.mem_map.mp hp
    rfl
  · intro p hp
    replace hp : p ∈ g.voice_states.map
        (fun q => (q.1, { q.2 with guild_id := g.id })) := hp
    obtain ⟨a, _, rfl⟩ := List.mem_map.mp hp
    rfl

/-- A raw snapshot guild with one entry per collection, before attachment. -/
def gRaw : Guild :=
  { gBase with
    members := [(3, mkMember 3 [])],
    channels := [(10, Channel.mk 10 0)],
    roles := [(1, mkRole 1 1)],
    emojis := [(20, Emoji.mk 20 0 "emo" false false [])],
    voice_states := [("sess", VoiceState.mk "sess" 0 3)] }

/-- C5 witness: the member entry of the constructed `gRaw` carries
`guild_id = gRaw.id`. -/
theorem C5_attachment_witness :
    (3, { mkMember 3 [] with guild_id := gRaw.id }) ∈ (Guild.init gRaw).members ∧
    ({ mkMember 3 [] with guild_id := gRaw.id } : GuildMember).guild_id =
      gRaw.id :=
  ⟨by decide,
    (C5_attachment gRaw).1 (3, { mkMember 3 [] with guild_id := gRaw.id })
      (by decide)⟩

/-- Calling `sync` on an already-synced aggregate is a no-op however often it is
called: the flag stays true and no packet is ever emitted. -/
theorem syncN_synced (n : Nat) (g : Guild) (h : g.synced = true) :
    syncN n g = (g, []) := by
  induction n with
  | zero => rfl
  | succ k ih => simp [syncN, Guild.sync, h, ih]

/-- C6: starting from an aggregate whose `synced` flag is false, any sequence
of `n ≥ 1` calls to `sync` emits exactly one REQUEST_GUILD_MEMBERS packet
carrying the guild id, the empty query and limit 0, and leaves `synced` true;
and once `synced` is true it stays true and no further packet is emitted. -/
theorem C6_sync_once (g : Guild) (n : Nat) (h0 : g.synced = false)
    (h1 : 1 ≤ n) :
    syncN n g =
      ({ g with synced := true },
       [GatewayCmd.mk OPCode.REQUEST_GUILD_MEMBERS g.id "" 0]) ∧
    (syncN n g).1.synced = true ∧
    (∀ (g' : Guild) (m : Nat), g'.synced = true → syncN m g' = (g', [])) := by
  have hmain : syncN n g =
      ({ g with synced := true },
       [GatewayCmd.mk OPCode.REQUEST_GUILD_MEMBERS g.id "" 0]) := by
    cases n with
    | zero => exact absurd h1 (by decide)
    | succ k =>
      simp [syncN, Guild.sync, h0, syncN_synced k { g with synced := true } rfl]
  exact ⟨hmain, by rw [hmain], fun g' m h => syncN_synced m g' h⟩

/-- C6 witness: three `sync` calls on `gBase` emit exactly one
REQUEST_GUILD_MEMBERS packet and leave the flag set. -/
theorem C6_sync_once_witness :
    gBase.synced = false ∧
    syncN 3 gBase =
      ({ gBase with synced := true },
       [GatewayCmd.mk OPCode.REQUEST_GUILD_MEMBERS gBase.id "" 0]) :=
  ⟨rfl, (C6_sync_once gBase 3 rfl (by decide)).1⟩

/-- C7: `add_role` dispatches exactly one `guilds_members_modify` call whose
role-id list is the member's prior list with the new role's id appended at the
end (order preserved, duplicates kept, full replacement list sent), and the
member itself is returned unmodified. -/
theorem C7_add_role_appends (g : Guild) (m : GuildMember) (r : Role) :
    m.add_role g r =
      (m, [ApiCall.guilds_members_modify g.id m.user.id none
            (some (m.roles ++ [r.id]))]) := rfl

/-- C8: `update_role` dispatches exactly one `guilds_roles_modify` call
serializing exactly name, the raw integer of the permission bitset, position,
color, hoist and mentionable, and leaves the guild unchanged. -/
theorem C8_update_role_fields (g : Guild) (r : Role) :
    g.update_role r =
      (g, [ApiCall.guilds_roles_modify g.id r.id r.name r.permissions.value
            r.position r.color r.hoist r.mentionable]) := rfl

/-- C10: `set_nickname` dispatches a call carrying the empty string whenever
the argument is `None` or the empty string (Python falsy), and carrying the
string unchanged otherwise; clearing with `None` and setting the empty string
produce identical calls.  The member itself is never modified. -/
theorem C10_set_nickname_falsy (g : Guild) (m : GuildMember)
    (v : Option String) :
    ((v = none ∨ v = some "") →
      m.set_nickname g v =
        (m, [ApiCall.guilds_members_modify g.id m.user.id (some "") none]) ∧
      m.set_nickname g v = m.set_nickname g none) ∧
    (∀ s, v = some s → ¬ s = "" →
      m.set_nickname g v =
        (m, [ApiCall.guilds_members_modify g.id m.user.id (some s) none])) := by
  constructor
  · rintro (rfl | rfl) <;>
      exact ⟨by simp [GuildMember.set_nickname, pyStrOr],
             by simp [GuildMember.set_nickname, pyStrOr]⟩
  · rintro s rfl hs
    simp [GuildMember.set_nickname, pyStrOr, hs]

/-- C10 witness: setting the empty-string nickname on member 3 of `gBase`
sends the empty string and coincides with clearing via `None`. -/
theorem C10_set_nickname_falsy_witness :
    (mkMember 3 []).set_nickname gBase (some "") =
      (mkMember 3 [],
       [ApiCall.guilds_members_modify gBase.id 3 (some "") none]) ∧
    (mkMember 3 []).set_nickname gBase (some "") =
      (mkMember 3 []).set_nickname gBase none :=
  (C10_set_nickname_falsy gBase (mkMember 3 []) (some "")).1 (Or.inr rfl)

end Disco
